import Mathlib

/-!
Verification of the PDF copy-protection core of `streamlit_app.py`.

The development shallowly embeds the three pure aspects of the program that
the specification describes:

* `restrict_copying_permissions` — the permission-bitmask construction inside
  `restrict_copying_pdf` (source lines 47–63), translated statement by
  statement.  Python integers here stay non-negative (the mask starts at 0 and
  only ORs positive constants), so the mask is modelled as `Nat`; the
  non-negativity guarantee is stated over the embedding into `Int`.
* `restrict_copying_pdf` — the whole operation (source lines 28–78), with the
  external PDF library abstracted: a parsed document is its list of pages, and
  the encryption call is recorded as a structure holding exactly the arguments
  the source passes (`user_password`, `owner_password`, `use_128bit`,
  `permissions_flag`) together with the writer's pages.
* `convert_to_image_pdf` — the rasterisation loop (source lines 81–135), with
  the external rendering primitives abstracted as function parameters
  (`render` for `page.get_pixmap`/`Image.open`, `img_to_page` for saving an
  image as a one-page PDF and re-reading its single page).
-/

/-- Permission-mask construction of `restrict_copying_pdf`
(source lines 47–63), translated statement by statement:
start from 0, always OR in 4 (print) and 2048 (print high resolution),
OR in 16 and 32 when `allow_text_selection`, OR in 256, 512 and 1024 when
`allow_interactive`, and finally always OR in 64 (modify annotations). -/
def restrict_copying_permissions
    (allow_interactive allow_text_selection : Bool) : Nat :=
  let permissions : Nat := 0
  let permissions := permissions ||| 4
  let permissions := permissions ||| 2048
  let permissions :=
    if allow_text_selection then
      let permissions := permissions ||| 16
      permissions ||| 32
    else permissions
  let permissions :=
    if allow_interactive then
      let permissions := permissions ||| 256
      let permissions := permissions ||| 512
      permissions ||| 1024
    else permissions
  permissions ||| 64

/-- Call of `restrict_copying_pdf` with Python's optional-argument
resolution (source lines 28–30): an omitted argument (`none`) falls back to
the declared default `False`. -/
def restrict_copying_permissions_call
    (allow_interactive allow_text_selection : Option Bool) : Nat :=
  restrict_copying_permissions (allow_interactive.getD false)
    (allow_text_selection.getD false)

/-- Permission-mask construction run in an exception monad that models
Python's exception channel: every statement of the source body
(source lines 47–63) is a pure step — integer OR and boolean tests raise
nothing — so no step of the computation can produce an error. -/
def restrict_copying_permissions_exc
    (allow_interactive allow_text_selection : Bool) : Except String Nat := do
  let permissions : Nat := 0
  let permissions := permissions ||| 4
  let permissions := permissions ||| 2048
  let permissions :=
    if allow_text_selection then
      let permissions := permissions ||| 16
      permissions ||| 32
    else permissions
  let permissions :=
    if allow_interactive then
      let permissions := permissions ||| 256
      let permissions := permissions ||| 512
      permissions ||| 1024
    else permissions
  return permissions ||| 64

/-- Result of `writer.encrypt(...)` followed by `writer.write(...)`
(source lines 66–78): the pages the writer holds and the exact arguments
the source passes to the external encryption primitive. -/
structure EncryptedPdf (Page : Type) where
  pages : List Page
  user_password : String
  owner_password : String
  use_128bit : Bool
  permissions_flag : Nat

/-- Whole `restrict_copying_pdf` operation (source lines 28–78) over an
already-parsed document, abstracted as its list of pages: every page of the
reader is added to the writer in order (the `for page in reader.pages` loop,
lines 43–44, modelled as a left fold of `add_page`), the permission mask is
built, and the writer is encrypted with an empty user password, the constant
owner password `"owner_protection_key"` and the mask as `permissions_flag`. -/
def restrict_copying_pdf {Page : Type} (reader_pages : List Page)
    (allow_interactive allow_text_selection : Bool) : EncryptedPdf Page :=
  let writer : List Page := reader_pages.foldl (fun w page => w ++ [page]) []
  let permissions :=
    restrict_copying_permissions allow_interactive allow_text_selection
  let owner_password := "owner_protection_key"
  { pages := writer
    user_password := ""
    owner_password := owner_password
    use_128bit := true
    permissions_flag := permissions }

/-- Result of `convert_to_image_pdf`: either the bytes of the image-based
PDF (abstracted as the writer's list of pages) when `get_images` is false,
or the list of rendered images when `get_images` is true
(source lines 128–135). -/
inductive ConvertResult (Page Img : Type) where
  | pdfBytes : List Page → ConvertResult Page Img
  | imageList : List Img → ConvertResult Page Img
  deriving DecidableEq

/-- Loop body of `convert_to_image_pdf` (source lines 100–123): render the
page at the given dpi; if `get_images`, append the image to the list,
otherwise save the image as a one-page PDF and add its page to the writer.
The writer is `none` when `get_images` is true, mirroring
`writer = PdfWriter() if not get_images else None` (line 98). -/
def convert_step {Page Img : Type} (render : Nat → Page → Img)
    (img_to_page : Img → Page) (dpi : Nat) (get_images : Bool)
    (st : List Img × Option (List Page)) (page : Page) :
    List Img × Option (List Page) :=
  let img := render dpi page
  if get_images then (st.1 ++ [img], st.2)
  else (st.1, st.2.map (fun w => w ++ [img_to_page img]))

/-- Whole `convert_to_image_pdf` operation (source lines 81–135) over an
already-parsed document, abstracted as its list of pages.  The loop
`for page_num in range(pdf_document.page_count)` with `load_page(page_num)`
visits exactly the pages in order, so it is modelled as a left fold of
`convert_step` over the page list; the external rasteriser and the
image-to-PDF-page conversion are abstract parameters. -/
def convert_to_image_pdf {Page Img : Type} (render : Nat → Page → Img)
    (img_to_page : Img → Page) (pdf_pages : List Page) (dpi : Nat)
    (get_images : Bool) : ConvertResult Page Img :=
  let writer : Option (List Page) := if get_images then none else some []
  let st := pdf_pages.foldl (convert_step render img_to_page dpi get_images)
    ([], writer)
  if get_images then ConvertResult.imageList st.1
  else ConvertResult.pdfBytes (st.2.getD [])

/-! Helper lemmas. -/

/-- Folding `add_page` over a list appends the list to the accumulator. -/
theorem foldl_add_page_eq {α : Type} (l acc : List α) :
    l.foldl (fun w page => w ++ [page]) acc = acc ++ l := by
  induction l generalizing acc with
  | nil => simp
  | cons x xs ih => simp [List.foldl, ih]

/-- With `get_images = true`, the conversion fold collects the rendered
images in order and leaves the writer untouched. -/
theorem convert_fold_true {Page Img : Type} (render : Nat → Page → Img)
    (img_to_page : Img → Page) (dpi : Nat) (l : List Page)
    (acc : List Img × Option (List Page)) :
    l.foldl (convert_step render img_to_page dpi true) acc
      = (acc.1 ++ l.map (render dpi), acc.2) := by
  induction l generalizing acc with
  | nil => simp
  | cons x xs ih => simp [List.foldl, convert_step, ih]

/-- With `get_images = false`, the conversion fold adds one converted page
per input page to the writer, in order, and leaves the image list empty. -/
theorem convert_fold_false {Page Img : Type} (render : Nat → Page → Img)
    (img_to_page : Img → Page) (dpi : Nat) (l : List Page)
    (accI : List Img) (accW : List Page) :
    l.foldl (convert_step render img_to_page dpi false) (accI, some accW)
      = (accI, some (accW ++ l.map (fun p => img_to_page (render dpi p)))) := by
  induction l generalizing accW with
  | nil => simp
  | cons x xs ih =>
    simp only [List.foldl, convert_step, if_neg (Bool.false_ne_true),
      Option.map_some']
    rw [ih (accW ++ [img_to_page (render dpi x)])]
    simp

/-- Absorption under OR for pointwise-ordered flag pairs: the smaller
mask's bits are all contained in the larger mask. -/
theorem restrict_copying_permissions_lor_mono :
    ∀ a1 t1 a2 t2 : Bool, a1 ≤ a2 → t1 ≤ t2 →
      restrict_copying_permissions a1 t1
          ||| restrict_copying_permissions a2 t2
        = restrict_copying_permissions a2 t2 := by
  decide

/-- Bit containment follows from absorption under OR. -/
theorem testBit_of_lor_eq {m1 m2 : Nat} (h : m1 ||| m2 = m2) (i : Nat)
    (hb : m1.testBit i = true) : m2.testBit i = true := by
  have hlor := Nat.testBit_lor m1 m2 i
  rw [h] at hlor
  rw [hlor, hb, Bool.true_or]

/-! Claims. -/

/-- C1: for every pair of boolean inputs the permission mask equals the
value in the spec's four-row table: (allow_interactive, allow_text_selection)
= (false, false) ↦ 2116, (true, false) ↦ 3908, (false, true) ↦ 2164,
(true, true) ↦ 3956. -/
theorem restrict_copying_permissions_table :
    restrict_copying_permissions false false = 2116 ∧
    restrict_copying_permissions true false = 3908 ∧
    restrict_copying_permissions false true = 2164 ∧
    restrict_copying_permissions true true = 3956 := by
  decide

/-- C2: for every pair of boolean inputs the returned mask has the baseline
bits set — print (value 4), print high resolution (value 2048) and modify
annotations (value 64) — and the flags only add on top of the baseline-only
mask, never removing any of its bits. -/
theorem restrict_copying_permissions_baseline :
    ∀ (allow_interactive allow_text_selection : Bool),
      restrict_copying_permissions allow_interactive allow_text_selection
          &&& 4 = 4 ∧
      restrict_copying_permissions allow_interactive allow_text_selection
          &&& 2048 = 2048 ∧
      restrict_copying_permissions allow_interactive allow_text_selection
          &&& 64 = 64 ∧
      restrict_copying_permissions false false
          ||| restrict_copying_permissions allow_interactive allow_text_selection
        = restrict_copying_permissions allow_interactive allow_text_selection := by
  decide

/-- C3: for every pair of boolean inputs, no bit outside the seven listed
permission values (4, 2048, 64, 16, 32, 256, 512, 1024, whose union is 3956)
is ever set — the mask ORed with 3956 equals 3956 — and the mask, viewed as a
Python integer, is non-negative. -/
theorem restrict_copying_permissions_no_extra_bits :
    ∀ (allow_interactive allow_text_selection : Bool),
      restrict_copying_permissions allow_interactive allow_text_selection
          ||| 3956 = 3956 ∧
      0 ≤ (restrict_copying_permissions allow_interactive allow_text_selection
        : Int) := by
  decide

/-- C4: the mask construction is monotone — for pointwise-ordered boolean
pairs, every bit set in the smaller mask is set in the larger one, so
enabling either flag never clears a bit set by the baseline or by the other
flag. -/
theorem restrict_copying_permissions_monotone
    (a1 t1 a2 t2 : Bool) (ha : a1 ≤ a2) (ht : t1 ≤ t2) (i : Nat)
    (hb : (restrict_copying_permissions a1 t1).testBit i = true) :
    (restrict_copying_permissions a2 t2).testBit i = true :=
  testBit_of_lor_eq
    (restrict_copying_permissions_lor_mono a1 t1 a2 t2 ha ht) i hb

/-- C4 witness: the monotonicity theorem applied at
(a1, t1) = (false, false), (a2, t2) = (true, true) and bit 2,
the print bit of the baseline. -/
theorem restrict_copying_permissions_monotone_witness :
    (restrict_copying_permissions true true).testBit 2 = true :=
  restrict_copying_permissions_monotone false false true true (by decide)
    (by decide) 2 (by decide)

/-- C5: the mask builder is pure and deterministic — two invocations with
identical boolean inputs yield the same integer. -/
theorem restrict_copying_permissions_deterministic
    (a1 t1 a2 t2 : Bool) (ha : a1 = a2) (ht : t1 = t2) :
    restrict_copying_permissions a1 t1 = restrict_copying_permissions a2 t2 := by
  rw [ha, ht]

/-- C5 witness: the determinism theorem applied at equal concrete inputs
(true, false). -/
theorem restrict_copying_permissions_deterministic_witness :
    restrict_copying_permissions true false
      = restrict_copying_permissions true false :=
  restrict_copying_permissions_deterministic true false true false (by decide)
    (by decide)

/-- C6: both boolean parameters default to false when absent — invoking the
operation without supplying `allow_interactive` or `allow_text_selection`
behaves exactly as the (false, false) case and produces the baseline-only
mask 2116. -/
theorem restrict_copying_permissions_defaults :
    restrict_copying_permissions_call none none
        = restrict_copying_permissions false false ∧
    restrict_copying_permissions_call none none = 2116 := by
  decide

/-- C7: the mask builder cannot fail — run in the exception monad that
models Python's exception channel, every pair of boolean inputs produces
`Except.ok` of the mask, never an error. -/
theorem restrict_copying_permissions_total :
    ∀ (allow_interactive allow_text_selection : Bool),
      restrict_copying_permissions_exc allow_interactive allow_text_selection
        = Except.ok
            (restrict_copying_permissions allow_interactive
              allow_text_selection) := by
  intro a t
  cases a <;> cases t <;> rfl

/-- C8: for every input, the built mask is handed to the external encryption
primitive as the `permissions_flag` argument, together with an empty user
password and the fixed owner password string `"owner_protection_key"`. -/
theorem restrict_copying_pdf_encrypt_args
    {Page : Type} (reader_pages : List Page)
    (allow_interactive allow_text_selection : Bool) :
    (restrict_copying_pdf reader_pages allow_interactive
        allow_text_selection).user_password = "" ∧
    (restrict_copying_pdf reader_pages allow_interactive
        allow_text_selection).owner_password = "owner_protection_key" ∧
    (restrict_copying_pdf reader_pages allow_interactive
        allow_text_selection).permissions_flag
      = restrict_copying_permissions allow_interactive allow_text_selection := by
  refine ⟨rfl, rfl, rfl⟩

/-- C9: the copy-protection operation preserves the document's pages — every
page of the input is added to the output writer in the original order, so the
protected output has the same pages in the same order as the input. -/
theorem restrict_copying_pdf_preserves_pages
    {Page : Type} (reader_pages : List Page)
    (allow_interactive allow_text_selection : Bool) :
    (restrict_copying_pdf reader_pages allow_interactive
        allow_text_selection).pages = reader_pages := by
  show reader_pages.foldl (fun w page => w ++ [page]) [] = reader_pages
  rw [foldl_add_page_eq]
  simp

/-- C10: with `get_images = true`, `convert_to_image_pdf` returns the list
of rendered images, one per input page in page order (so its length is the
page count); with `get_images = false` it returns the image-based PDF holding
one image page per input page, in order. -/
theorem convert_to_image_pdf_spec
    {Page Img : Type} (render : Nat → Page → Img) (img_to_page : Img → Page)
    (pdf_pages : List Page) (dpi : Nat) :
    convert_to_image_pdf render img_to_page pdf_pages dpi true
        = ConvertResult.imageList (pdf_pages.map (render dpi)) ∧
    (pdf_pages.map (render dpi)).length = pdf_pages.length ∧
    convert_to_image_pdf render img_to_page pdf_pages dpi false
        = ConvertResult.pdfBytes
            (pdf_pages.map (fun p => img_to_page (render dpi p))) := by
  refine ⟨?_, by simp, ?_⟩
  · show ConvertResult.imageList
        (pdf_pages.foldl (convert_step render img_to_page dpi true)
          ([], none)).1 = _
    rw [convert_fold_true]
    simp
  · show ConvertResult.pdfBytes
        ((pdf_pages.foldl (convert_step render img_to_page dpi false)
          ([], some [])).2.getD []) = _
    rw [convert_fold_false render img_to_page dpi pdf_pages [] []]
    simp
